import Mathlib

/-!
Shallow embedding of the AccountView component
(src/webview-ui/src/components/account/AccountView.tsx).

The component consists of three pieces of logic:
* a transition-tracker effect over the `isAuthenticated` prop (the
  `useEffect` with dependency `[isAuthenticated]` and the mutable
  `wasAuthenticatedRef` cell) that emits the ACCOUNT_LOGOUT_SUCCESS
  telemetry event on an authenticated-to-unauthenticated edge;
* three click handlers, each emitting one telemetry event and posting
  one message to the extension host;
* a pure conditional render over `(isAuthenticated, userInfo)`.

Side effects are modelled as explicit traces (`List Effect`); JavaScript
truthiness of optional strings (`undefined` and `""` are falsy) is
modelled explicitly where the source relies on it (`||`, `&&`, `?:`,
`charAt`).
-/

/-- Telemetry event names used by AccountView (from `@roo-code/types`). -/
inductive TelemetryEventName where
  | ACCOUNT_CONNECT_CLICKED
  | ACCOUNT_LOGOUT_CLICKED
  | ACCOUNT_LOGOUT_SUCCESS
deriving DecidableEq, Repr

/-- A message posted to the extension host via `vscode.postMessage`.
`url` is `none` for messages that carry no `url` field. -/
structure WebviewMessage where
  type : String
  url : Option String
deriving DecidableEq, Repr

/-- `CloudUserInfo` from `@roo-code/types`: every field is optional
(`none` models a missing / `undefined` field). -/
structure CloudUserInfo where
  name : Option String
  email : Option String
  picture : Option String
  organizationName : Option String
  organizationImageUrl : Option String
deriving DecidableEq, Repr

/-- The props of AccountView that the embedded logic reads
(`onDone` is an opaque callback and is not read by the core logic). -/
structure AccountViewProps where
  userInfo : Option CloudUserInfo
  isAuthenticated : Bool
  cloudApiUrl : Option String
deriving DecidableEq, Repr

/-- One observable side effect performed by the component: a telemetry
capture, a `postMessage` to the host, or a write to
`wasAuthenticatedRef.current`. -/
inductive Effect where
  | capture (e : TelemetryEventName)
  | postMessage (m : WebviewMessage)
  | setWasAuthenticated (b : Bool)
deriving DecidableEq, Repr

/-- The telemetry events of a trace, in order. -/
def telemetryOf (tr : List Effect) : List TelemetryEventName :=
  tr.filterMap fun e =>
    match e with
    | Effect.capture ev => some ev
    | _ => none

/-- The posted messages of a trace, in order. -/
def messagesOf (tr : List Effect) : List WebviewMessage :=
  tr.filterMap fun e =>
    match e with
    | Effect.postMessage m => some m
    | _ => none

/-- Whether an effect writes the `wasAuthenticatedRef` cell. -/
def Effect.writesRef : Effect → Bool
  | Effect.setWasAuthenticated _ => true
  | _ => false

/-- The value of `wasAuthenticatedRef.current` after running a trace,
starting from value `w`. -/
def applyRef (w : Bool) (tr : List Effect) : Bool :=
  tr.foldl
    (fun cur e =>
      match e with
      | Effect.setWasAuthenticated b => b
      | _ => cur)
    w

/-- JavaScript `a || d` for a possibly-undefined string `a`:
`undefined` and the empty string are falsy. -/
def jsStringOr (a : Option String) (d : String) : String :=
  match a with
  | none => d
  | some s => if s = "" then d else s

/-- JavaScript `s?.charAt(0)`: the first character as a one-character
string, the empty string when `s` is empty, `undefined` propagated
through optional chaining. -/
def jsCharAt0 : Option String → Option String
  | none => none
  | some s => if s = "" then some "" else some (String.singleton s.front)

/-- The avatar fallback expression at line 133 of the source:
`userInfo?.name?.charAt(0) || userInfo?.email?.charAt(0) || "?"`. -/
def avatarInitial (u : CloudUserInfo) : String :=
  jsStringOr (jsCharAt0 u.name) (jsStringOr (jsCharAt0 u.email) "?")

/-- Initial value of the transition-memory cell: `useRef(false)`. -/
def wasAuthenticatedRefInit : Bool := false

/-- The body of the `useEffect` at lines 57-66, as the trace of effects
it performs given the observed `isAuthenticated` prop and the current
value of `wasAuthenticatedRef.current`. -/
def accountViewEffect (isAuthenticated wasAuthenticated : Bool) : List Effect :=
  if isAuthenticated then
    [Effect.setWasAuthenticated true]
  else if wasAuthenticated && !isAuthenticated then
    [Effect.capture TelemetryEventName.ACCOUNT_LOGOUT_SUCCESS,
     Effect.setWasAuthenticated false]
  else
    []

/-- `handleConnectClick` (lines 74-78): capture ACCOUNT_CONNECT_CLICKED,
then post `{ type: "rooCloudSignIn" }`. The handler closes over the
props but reads none of them. -/
def handleConnectClick (_ : AccountViewProps) : List Effect :=
  [Effect.capture TelemetryEventName.ACCOUNT_CONNECT_CLICKED,
   Effect.postMessage { type := "rooCloudSignIn", url := none }]

/-- `handleLogoutClick` (lines 86-90): capture ACCOUNT_LOGOUT_CLICKED,
then post `{ type: "rooCloudSignOut" }`. -/
def handleLogoutClick (_ : AccountViewProps) : List Effect :=
  [Effect.capture TelemetryEventName.ACCOUNT_LOGOUT_CLICKED,
   Effect.postMessage { type := "rooCloudSignOut", url := none }]

/-- `handleVisitCloudWebsite` (lines 98-103): capture
ACCOUNT_CONNECT_CLICKED, then post `{ type: "openExternal", url }` with
`url = cloudApiUrl || "https://app.roocode.com"`. -/
def handleVisitCloudWebsite (p : AccountViewProps) : List Effect :=
  [Effect.capture TelemetryEventName.ACCOUNT_CONNECT_CLICKED,
   Effect.postMessage
     { type := "openExternal",
       url := some (jsStringOr p.cloudApiUrl "https://app.roocode.com") }]

/-- The two mutually exclusive render modes of the view. -/
inductive RenderMode where
  | SignedOut
  | SignedIn
deriving DecidableEq, Repr

/-- The avatar: a profile picture, or an initials fallback. -/
inductive Avatar where
  | picture (src : String)
  | initials (text : String)
deriving DecidableEq, Repr

/-- The profile section rendered when `userInfo` is present (lines
119-162); each field is present only when the corresponding JSX guard
is truthy. The organization block carries its optional image. -/
structure ProfileBlock where
  avatar : Avatar
  name : Option String
  email : Option String
  organization : Option (String × Option String)
deriving DecidableEq, Repr

/-- JavaScript truthiness filter for optional strings: keeps the value
when it is defined and non-empty. -/
def truthyStr (a : Option String) : Option String :=
  match a with
  | none => none
  | some s => if s = "" then none else some s

/-- The profile block built from a present `userInfo` (lines 119-162):
ternary on `userInfo?.picture` for the avatar, `&&`-guards for name,
email and organization. -/
def profileBlockOf (u : CloudUserInfo) : ProfileBlock :=
  { avatar :=
      match truthyStr u.picture with
      | some pic => Avatar.picture pic
      | none => Avatar.initials (avatarInitial u)
    name := truthyStr u.name
    email := truthyStr u.email
    organization :=
      (truthyStr u.organizationName).map
        (fun n => (n, truthyStr u.organizationImageUrl)) }

/-- The buttons of the view, identified by their click action. -/
inductive ButtonAction where
  | done
  | visitCloudWebsite
  | logOut
  | connect
deriving DecidableEq, Repr

/-- The rendered view: mode, optional profile block, and the buttons in
document order. -/
structure RenderedView where
  mode : RenderMode
  profile : Option ProfileBlock
  buttons : List ButtonAction
deriving DecidableEq, Repr

/-- The render function (lines 105-240): header with Done button, then
a conditional on `isAuthenticated`. The authenticated branch renders
the profile block only when `userInfo` is non-null, and always renders
the visit-website and log-out buttons; the unauthenticated branch
renders the connect button. -/
def render (p : AccountViewProps) : RenderedView :=
  if p.isAuthenticated then
    { mode := RenderMode.SignedIn
      profile := p.userInfo.map profileBlockOf
      buttons := [ButtonAction.done, ButtonAction.visitCloudWebsite, ButtonAction.logOut] }
  else
    { mode := RenderMode.SignedOut
      profile := none
      buttons := [ButtonAction.done, ButtonAction.connect] }

/-- One mounted view instance observing a sequence of `isAuthenticated`
prop values, one per render. React runs an effect with dependency list
`[isAuthenticated]` after the first render and after every render whose
`isAuthenticated` differs from the one the effect last ran with; the
first argument is that last-run dependency value (`none` before mount),
the second the current `wasAuthenticatedRef.current`. Returns the
per-render effect traces. -/
def runRenders : Option Bool → Bool → List Bool → List (List Effect)
  | _, _, [] => []
  | prevDep, was, b :: bs =>
    if prevDep = some b then
      [] :: runRenders prevDep was bs
    else
      let tr := accountViewEffect b was
      tr :: runRenders (some b) (applyRef was tr) bs

/-- The per-render effect traces of one freshly mounted view instance
observing the prop sequence `bs`. -/
def mountedView (bs : List Bool) : List (List Effect) :=
  runRenders none wasAuthenticatedRefInit bs

/-- Per-render falling-edge indicator for a prop sequence: 1 exactly
when the previous render's value was `true` and the current one is
`false` (the end of a maximal run of `true` immediately followed by
`false`); the first render never counts. -/
def fallingFlags : Option Bool → List Bool → List Nat
  | _, [] => []
  | prev, b :: bs =>
    (if prev = some true ∧ b = false then 1 else 0) :: fallingFlags (some b) bs

/-- Inputs a mounted view instance can receive: a render with a new
`isAuthenticated` prop value, or one of the three button clicks. -/
inductive ViewInput where
  | render (isAuthenticated : Bool)
  | clickConnect
  | clickLogout
  | clickVisit
deriving DecidableEq, Repr

/-- Whether an input is a render (prop update). -/
def ViewInput.isRender : ViewInput → Bool
  | ViewInput.render _ => true
  | _ => false

/-- The instance-local state of a mounted view: the dependency value the
effect last ran with, and the `wasAuthenticatedRef` cell. -/
structure ViewState where
  prevDep : Option Bool
  wasAuthenticated : Bool
deriving DecidableEq, Repr

/-- The state of a freshly mounted view instance. -/
def initialViewState : ViewState :=
  { prevDep := none, wasAuthenticated := wasAuthenticatedRefInit }

/-- One step of a mounted view instance with props `p0` at the time of
a click: processes one input, returning the new state and the trace of
effects the input performed. State updates flow only through the
`setWasAuthenticated` effects of the trace. -/
def stepView (p0 : AccountViewProps) (s : ViewState) : ViewInput → ViewState × List Effect
  | ViewInput.render b =>
    if s.prevDep = some b then
      (s, [])
    else
      let tr := accountViewEffect b s.wasAuthenticated
      ({ prevDep := some b, wasAuthenticated := applyRef s.wasAuthenticated tr }, tr)
  | ViewInput.clickConnect =>
    let tr := handleConnectClick p0
    ({ s with wasAuthenticated := applyRef s.wasAuthenticated tr }, tr)
  | ViewInput.clickLogout =>
    let tr := handleLogoutClick p0
    ({ s with wasAuthenticated := applyRef s.wasAuthenticated tr }, tr)
  | ViewInput.clickVisit =>
    let tr := handleVisitCloudWebsite p0
    ({ s with wasAuthenticated := applyRef s.wasAuthenticated tr }, tr)

/-- The state of a mounted view instance after a sequence of inputs. -/
def runView (p0 : AccountViewProps) : ViewState → List ViewInput → ViewState
  | s, [] => s
  | s, i :: is => runView p0 (stepView p0 s i).1 is

/-! ## Helper lemmas -/

/-- After one run of the effect body, the cell equals the observed
value of `isAuthenticated`. -/
lemma applyRef_accountViewEffect (b w : Bool) :
    applyRef w (accountViewEffect b w) = b := by
  cases b <;> cases w <;> rfl

/-- Count of logout-success events in one run of the effect body. -/
lemma logoutCount_accountViewEffect (b w : Bool) :
    (telemetryOf (accountViewEffect b w)).count
        TelemetryEventName.ACCOUNT_LOGOUT_SUCCESS
      = (if w = true ∧ b = false then 1 else 0) := by
  cases b <;> cases w <;> rfl

/-- The logout-success counts of the per-render traces follow the
falling-edge flags of the prop sequence, whenever the last-run
dependency value and the cell agree (or nothing has run yet). -/
lemma runRenders_logoutCounts (bs : List Bool) :
    ∀ (p : Option Bool) (w : Bool),
      (p = none ∧ w = false) ∨ p = some w →
      (runRenders p w bs).map
          (fun tr => (telemetryOf tr).count
            TelemetryEventName.ACCOUNT_LOGOUT_SUCCESS)
        = fallingFlags p bs := by
  induction bs with
  | nil =>
    intro p w _
    rfl
  | cons b bs ih =>
    intro p w h
    rcases h with ⟨hp, hw⟩ | hp
    · subst hp
      subst hw
      cases b <;>
        simp only [runRenders, fallingFlags, List.map_cons, accountViewEffect,
          applyRef, telemetryOf, List.filterMap, List.foldl, List.count_nil,
          reduceCtorEq, if_false, Bool.false_and, Bool.and_self, if_true,
          ite_false, ite_true, List.cons.injEq, false_and, and_false,
          reduceIte] <;>
        first
          | exact ih _ _ (Or.inr rfl)
          | exact ⟨trivial, ih _ _ (Or.inr rfl)⟩
    · subst hp
      cases w <;> cases b <;>
        simp only [runRenders, fallingFlags, List.map_cons, accountViewEffect,
          applyRef, telemetryOf, List.filterMap, List.foldl, List.count_nil,
          List.count_cons, Option.some.injEq, reduceCtorEq, if_false,
          Bool.false_and, Bool.and_self, if_true, ite_false, ite_true,
          List.cons.injEq, false_and, and_false, and_self, and_true,
          true_and, reduceIte] <;>
        first
          | exact ih _ _ (Or.inr rfl)
          | exact ⟨trivial, ih _ _ (Or.inr rfl)⟩
          | exact ⟨rfl, ih _ _ (Or.inr rfl)⟩

/-- A one-character string is never the empty string. -/
lemma singleton_front_ne_empty (ch : Char) : String.singleton ch ≠ "" := by
  intro h
  have h2 := congrArg String.data h
  simp [String.singleton] at h2

/-- A click input never changes the instance state: the handler traces
contain no `setWasAuthenticated` effect. -/
lemma stepView_click_state (p0 : AccountViewProps) (s : ViewState) :
    (stepView p0 s ViewInput.clickConnect).1 = s ∧
      (stepView p0 s ViewInput.clickLogout).1 = s ∧
      (stepView p0 s ViewInput.clickVisit).1 = s :=
  ⟨rfl, rfl, rfl⟩

/-- The instance state after a sequence of inputs is the state after
its render inputs alone. -/
lemma runView_filter_renders (p0 : AccountViewProps) :
    ∀ (inputs : List ViewInput) (s : ViewState),
      runView p0 s inputs = runView p0 s (inputs.filter ViewInput.isRender) := by
  intro inputs
  induction inputs with
  | nil =>
    intro s
    rfl
  | cons i rest ih =>
    intro s
    cases i with
    | render b =>
      simp only [List.filter_cons, ViewInput.isRender, if_true, runView]
      exact ih _
    | clickConnect =>
      simp only [List.filter_cons, ViewInput.isRender, Bool.false_eq_true,
        if_false, runView]
      exact ih s
    | clickLogout =>
      simp only [List.filter_cons, ViewInput.isRender, Bool.false_eq_true,
        if_false, runView]
      exact ih s
    | clickVisit =>
      simp only [List.filter_cons, ViewInput.isRender, Bool.false_eq_true,
        if_false, runView]
      exact ih s

/-! ## Claims -/

/-- C1: over one mounted view instance, the ACCOUNT_LOGOUT_SUCCESS
telemetry event is emitted exactly once per maximal run of `true`
immediately followed by `false` in the observed `isAuthenticated`
sequence — that is, exactly on the falling edges — never on a rising
edge, never on a render where the value is unchanged, and never on the
initial mount value even when that value is `false`. -/
theorem spec_C1_logout_once_per_falling_edge (bs : List Bool) :
    (mountedView bs).map
        (fun tr => (telemetryOf tr).count
          TelemetryEventName.ACCOUNT_LOGOUT_SUCCESS)
      = fallingFlags none bs :=
  runRenders_logoutCounts bs none wasAuthenticatedRefInit (Or.inl ⟨rfl, rfl⟩)

/-- C2: invoking connect emits exactly one ACCOUNT_CONNECT_CLICKED
telemetry event and posts exactly one `rooCloudSignIn` message, the
telemetry first, for every props value (in particular regardless of
`isAuthenticated`). -/
theorem spec_C2_connect_once (p : AccountViewProps) :
    telemetryOf (handleConnectClick p)
        = [TelemetryEventName.ACCOUNT_CONNECT_CLICKED] ∧
      messagesOf (handleConnectClick p)
        = [{ type := "rooCloudSignIn", url := none }] ∧
      handleConnectClick p
        = [Effect.capture TelemetryEventName.ACCOUNT_CONNECT_CLICKED,
           Effect.postMessage { type := "rooCloudSignIn", url := none }] :=
  ⟨rfl, rfl, rfl⟩

/-- C3: invoking disconnect emits exactly one ACCOUNT_LOGOUT_CLICKED
telemetry event and posts exactly one `rooCloudSignOut` message, the
telemetry before the message, and the trace contains nothing else. -/
theorem spec_C3_disconnect_once (p : AccountViewProps) :
    telemetryOf (handleLogoutClick p)
        = [TelemetryEventName.ACCOUNT_LOGOUT_CLICKED] ∧
      messagesOf (handleLogoutClick p)
        = [{ type := "rooCloudSignOut", url := none }] ∧
      handleLogoutClick p
        = [Effect.capture TelemetryEventName.ACCOUNT_LOGOUT_CLICKED,
           Effect.postMessage { type := "rooCloudSignOut", url := none }] :=
  ⟨rfl, rfl, rfl⟩

/-- C4 counterexample: with `cloudApiUrl` provided as the empty string,
the posted `openExternal` message does not carry the provided value —
the claim that the url equals `cloudApiUrl` whenever the prop is
provided fails at this input. -/
theorem spec_C4_counterexample :
    messagesOf (handleVisitCloudWebsite
        { userInfo := none, isAuthenticated := false, cloudApiUrl := some "" })
      ≠ [{ type := "openExternal", url := some "" }] := by
  decide

/-- C4 (amended): invoking visit-website emits exactly one
ACCOUNT_CONNECT_CLICKED telemetry event (the reused event) and posts
exactly one `openExternal` message whose url equals `cloudApiUrl` when
that prop is provided and non-empty, and equals the fixed default
"https://app.roocode.com" when it is unset (the empty string also falls
back to the default, see C10). -/
theorem spec_C4_visit_website (p : AccountViewProps) :
    telemetryOf (handleVisitCloudWebsite p)
        = [TelemetryEventName.ACCOUNT_CONNECT_CLICKED] ∧
      (∀ u, p.cloudApiUrl = some u → u ≠ "" →
        messagesOf (handleVisitCloudWebsite p)
          = [{ type := "openExternal", url := some u }]) ∧
      (p.cloudApiUrl = none →
        messagesOf (handleVisitCloudWebsite p)
          = [{ type := "openExternal",
               url := some "https://app.roocode.com" }]) := by
  refine ⟨rfl, ?_, ?_⟩
  · intro u hu hne
    simp [messagesOf, handleVisitCloudWebsite, jsStringOr, hu, hne]
  · intro hu
    simp [messagesOf, handleVisitCloudWebsite, jsStringOr, hu]

/-- C4 witness: at `cloudApiUrl = some "https://custom.example.com"`,
visit-website posts that URL verbatim and emits the reused telemetry
event. -/
theorem spec_C4_visit_website_witness :
    telemetryOf (handleVisitCloudWebsite
        { userInfo := none, isAuthenticated := false,
          cloudApiUrl := some "https://custom.example.com" })
        = [TelemetryEventName.ACCOUNT_CONNECT_CLICKED] ∧
      messagesOf (handleVisitCloudWebsite
        { userInfo := none, isAuthenticated := false,
          cloudApiUrl := some "https://custom.example.com" })
        = [{ type := "openExternal",
             url := some "https://custom.example.com" }] :=
  ⟨(spec_C4_visit_website _).1,
   (spec_C4_visit_website _).2.1 "https://custom.example.com" rfl (by decide)⟩

/-- C5: the view projection is a pure deterministic function of
`(isAuthenticated, userInfo)` — two props values agreeing on those two
fields render identically — and for every input exactly one of the two
mutually exclusive modes SignedIn / SignedOut is selected. -/
theorem spec_C5_projector_deterministic :
    (∀ p q : AccountViewProps,
        p.isAuthenticated = q.isAuthenticated → p.userInfo = q.userInfo →
        render p = render q) ∧
      (∀ p : AccountViewProps,
        ((render p).mode = RenderMode.SignedIn ∨
            (render p).mode = RenderMode.SignedOut) ∧
          ¬((render p).mode = RenderMode.SignedIn ∧
            (render p).mode = RenderMode.SignedOut)) := by
  constructor
  · intro p q ha hu
    simp only [render, ha, hu]
  · intro p
    by_cases h : p.isAuthenticated = true <;> simp [render, h]

/-- C5 witness: two props values agreeing on `(isAuthenticated,
userInfo)` but differing in `cloudApiUrl` render identically. -/
theorem spec_C5_projector_deterministic_witness :
    render { userInfo := none, isAuthenticated := true, cloudApiUrl := none }
      = render { userInfo := none, isAuthenticated := true,
                 cloudApiUrl := some "https://custom.example.com" } :=
  spec_C5_projector_deterministic.1 _ _ rfl rfl

/-- C6: rendering with `isAuthenticated = true` and `userInfo = null`
is total (the Lean model evaluates to a definite rendered view): the
profile block is omitted entirely and the authenticated action buttons
(visit-website and log-out) are rendered. -/
theorem spec_C6_null_userinfo_graceful (c : Option String) :
    (render { userInfo := none, isAuthenticated := true,
              cloudApiUrl := c }).profile = none ∧
      (render { userInfo := none, isAuthenticated := true,
                cloudApiUrl := c }).buttons
        = [ButtonAction.done, ButtonAction.visitCloudWebsite,
           ButtonAction.logOut] ∧
      (render { userInfo := none, isAuthenticated := true,
                cloudApiUrl := c }).mode = RenderMode.SignedIn :=
  ⟨rfl, rfl, rfl⟩

/-- C7: with `isAuthenticated = true`, `userInfo` present and no
picture, the avatar is the initials fallback, whose text follows the
chain: first character of the name when the name is present and
non-empty; otherwise (name absent) first character of the email when
the email is present and non-empty; otherwise (both absent) the
placeholder "?". -/
theorem spec_C7_avatar_fallback_chain (u : CloudUserInfo) (c : Option String)
    (hpic : u.picture = none) :
    (render { userInfo := some u, isAuthenticated := true,
              cloudApiUrl := c }).profile = some (profileBlockOf u) ∧
      (profileBlockOf u).avatar = Avatar.initials (avatarInitial u) ∧
      (∀ n, u.name = some n → n ≠ "" →
        avatarInitial u = String.singleton n.front) ∧
      (u.name = none → ∀ e, u.email = some e → e ≠ "" →
        avatarInitial u = String.singleton e.front) ∧
      (u.name = none → u.email = none → avatarInitial u = "?") := by
  refine ⟨rfl, ?_, ?_, ?_, ?_⟩
  · simp [profileBlockOf, truthyStr, hpic]
  · intro n hn hne
    simp [avatarInitial, jsCharAt0, jsStringOr, hn, hne,
      singleton_front_ne_empty]
  · intro hn e he hne
    simp [avatarInitial, jsCharAt0, jsStringOr, hn, he, hne,
      singleton_front_ne_empty]
  · intro hn he
    simp [avatarInitial, jsCharAt0, jsStringOr, hn, he]

/-- C7 witness: `userInfo = { email := "a@b.com" }` with no name and no
picture yields the initials avatar with the letter "a". -/
theorem spec_C7_avatar_fallback_chain_witness :
    avatarInitial
        { name := none, email := some "a@b.com", picture := none,
          organizationName := none, organizationImageUrl := none } = "a" ∧
      (render { userInfo := some
                  { name := none, email := some "a@b.com", picture := none,
                    organizationName := none, organizationImageUrl := none },
                isAuthenticated := true, cloudApiUrl := none }).profile
        = some (profileBlockOf
            { name := none, email := some "a@b.com", picture := none,
              organizationName := none, organizationImageUrl := none }) := by
  have h := spec_C7_avatar_fallback_chain
    { name := none, email := some "a@b.com", picture := none,
      organizationName := none, organizationImageUrl := none } none rfl
  refine ⟨?_, h.1⟩
  have h2 := h.2.2.2.1 rfl "a@b.com" rfl (by decide)
  rw [h2]
  decide

/-- C8: the transition-memory cell starts at `false` on view-instance
creation, and only the tracker effect writes it: the three click
handlers perform no `setWasAuthenticated` effect, and the instance
state after any input sequence equals the state after its render
inputs alone. -/
theorem spec_C8_ref_owned_by_tracker :
    wasAuthenticatedRefInit = false ∧
      initialViewState.wasAuthenticated = false ∧
      (∀ p : AccountViewProps,
        ((handleConnectClick p).all fun e => ! e.writesRef) = true) ∧
      (∀ p : AccountViewProps,
        ((handleLogoutClick p).all fun e => ! e.writesRef) = true) ∧
      (∀ p : AccountViewProps,
        ((handleVisitCloudWebsite p).all fun e => ! e.writesRef) = true) ∧
      (∀ (p0 : AccountViewProps) (s : ViewState) (inputs : List ViewInput),
        runView p0 s inputs
          = runView p0 s (inputs.filter ViewInput.isRender)) :=
  ⟨rfl, rfl, fun _ => rfl, fun _ => rfl, fun _ => rfl,
   fun p0 s inputs => runView_filter_renders p0 inputs s⟩

/-- C9: after each run of the tracker effect the cell equals the
`isAuthenticated` value the effect observed — set to `true` on
observing `true`, reset to `false` on a falling edge — and observing
`false` with the cell already `false` performs no effect at all. -/
theorem spec_C9_effect_postcondition (b w : Bool) :
    applyRef w (accountViewEffect b w) = b ∧
      accountViewEffect false false = [] :=
  ⟨applyRef_accountViewEffect b w, rfl⟩

/-- C10: visit-website with `cloudApiUrl` equal to the empty string
posts the default url "https://app.roocode.com", not the empty string:
the handler behaves identically on `some ""` and on `none`. -/
theorem spec_C10_empty_url_defaults (ui : Option CloudUserInfo) (iA : Bool) :
    messagesOf (handleVisitCloudWebsite
        { userInfo := ui, isAuthenticated := iA, cloudApiUrl := some "" })
        = [{ type := "openExternal",
             url := some "https://app.roocode.com" }] ∧
      handleVisitCloudWebsite
          { userInfo := ui, isAuthenticated := iA, cloudApiUrl := some "" }
        = handleVisitCloudWebsite
          { userInfo := ui, isAuthenticated := iA, cloudApiUrl := none } :=
  ⟨rfl, rfl⟩
  
